import Mathlib

/-!
Shallow embedding of the `rio` session/state-synchronization core, covering
`src/rio/components/text_input.py`, `src/rio/components/text.py` and
`src/rio/testing.py`. JSON wire values are modelled by an inductive `Json`
type, Python dicts by association lists (`JsonDoc`), exceptions by
`Except String`, and the side effects of message dispatch (attribute
application, handler invocation, session refresh) by an explicit event trace.
-/

namespace Rio

/-- Wire-safe JSON values, as exchanged between session and client. -/
inductive Json where
  | null : Json
  | bool (b : Bool) : Json
  | num (n : Int) : Json
  | str (s : String) : Json
  | arr (xs : List Json) : Json
  | obj (kvs : List (String × Json)) : Json

/-- A Python `JsonDoc` (a JSON object / dict), modelled as an association
list from attribute name to value. Keys are assumed unique as in a dict. -/
abbrev JsonDoc : Type := List (String × Json)

/-- Dict lookup `d[k]`: the value of the first binding of `k`, if any. -/
def lookupKey (k : String) (kvs : List (String × Json)) : Option Json :=
  (kvs.find? (fun kv => kv.1 == k)).map (fun kv => kv.2)

/-- Observable effects of dispatching one inbound message on a component.
Each handler event records the argument passed to `call_event_handler`
together with the component's stored `text` at the moment of the call. -/
inductive Effect where
  | applyDelta (delta : List (String × Json)) : Effect
  | changeHandler (arg : String) (storedText : String) : Effect
  | confirmHandler (arg : String) (storedText : String) : Effect
  | refresh : Effect

/-- The `TextInput` component's declared attributes, with the defaults of
`src/rio/components/text_input.py`. The two optional event handlers are
modelled by `Option Unit`: `some ()` when a callable is registered,
`none` for Python `None`. -/
structure TextInput where
  text : String := ""
  label : String := ""
  prefix_text : String := ""
  suffix_text : String := ""
  is_secret : Bool := false
  is_sensitive : Bool := true
  is_valid : Bool := true
  on_change : Option Unit := none
  on_confirm : Option Unit := none
deriving DecidableEq

namespace TextInput

/-- Modelled from the spec: `Component.call_event_handler` invokes the given
optional handler with the event; an absent handler (Python `None`) is a
no-op, never an error. The returned trace records the invocation. -/
def call_event_handler (handler : Option Unit) (ev : Effect) : List Effect :=
  match handler with
  | none => []
  | some _ => [ev]

/-- Modelled from the spec: `_apply_delta_state_from_frontend` merges an
inbound delta into the component's attribute store; for `TextInput` the
only mutable attribute is `text`. -/
def _apply_delta_state_from_frontend (c : TextInput)
    (delta : List (String × Json)) : TextInput :=
  match lookupKey "text" delta with
  | some (Json.str v) => { c with text := v }
  | _ => c

/-- Embedding of `TextInput._validate_delta_state_from_frontend`: every key
must lie in the whitelist set containing only "text", and the "text" key is
additionally rejected when `is_sensitive` is false. -/
def _validate_delta_state_from_frontend (c : TextInput)
    (delta_state : List (String × Json)) : Except String Unit :=
  if ¬ (delta_state.all (fun kv => kv.1 == "text")) then
    Except.error "Frontend tried to change TextInput state"
  else if (delta_state.any (fun kv => kv.1 == "text")) ∧ ¬ c.is_sensitive then
    Except.error "Frontend tried to set TextInput.text even though is_sensitive is False"
  else
    Except.ok ()

/-- Embedding of `TextInput._call_event_handlers_for_delta_state`: when the
delta carries a "text" key, the change handler is called with the value
taken from the delta (asserting it is a string) while the stored text is
still the old one; afterwards the delta is applied to the attribute store. -/
def _call_event_handlers_for_delta_state (c : TextInput)
    (delta_state : List (String × Json)) :
    Except String (TextInput × List Effect) :=
  match lookupKey "text" delta_state with
  | none =>
      Except.ok (c._apply_delta_state_from_frontend delta_state,
        [Effect.applyDelta delta_state])
  | some (Json.str new_value) =>
      Except.ok (c._apply_delta_state_from_frontend delta_state,
        call_event_handler c.on_change (Effect.changeHandler new_value c.text)
          ++ [Effect.applyDelta delta_state])
  | some _ => Except.error "assert isinstance failed: new_value is not a str"

/-- Embedding of `TextInput._on_message`: asserts the message is a dict,
looks up its "text" entry (KeyError when absent), applies the singleton
delta to the attribute store, then triggers the change handler and the
confirm handler reading the now-stored text, and finally refreshes the
session. An `Except.error` result models an exception raised before any
mutation or handler invocation took place. -/
def _on_message (c : TextInput) (msg : Json) :
    Except String (TextInput × List Effect) :=
  match msg with
  | Json.obj kvs =>
      match lookupKey "text" kvs with
      | none => Except.error "KeyError: text"
      | some v =>
          let c1 := c._apply_delta_state_from_frontend [("text", v)]
          Except.ok (c1,
            Effect.applyDelta [("text", v)]
              :: call_event_handler c.on_change
                    (Effect.changeHandler c1.text c1.text)
              ++ call_event_handler c.on_confirm
                    (Effect.confirmHandler c1.text c1.text)
              ++ [Effect.refresh])
  | _ => Except.error "assert isinstance failed: msg is not a dict"

/-- Modelled from the spec: the session's inbound state-edit dispatch first
validates the delta against the target component and only on success hands
it to the component's event-handler/apply step; on validation failure the
message is rejected and no attribute is mutated. -/
def handle_inbound_delta (c : TextInput)
    (delta_state : List (String × Json)) :
    Except String (TextInput × List Effect) :=
  match c._validate_delta_state_from_frontend delta_state with
  | Except.error e => Except.error e
  | Except.ok _ => c._call_event_handlers_for_delta_state delta_state

end TextInput

/-- Modelled from the spec: `rio.TextStyle`, a full style object; its
attribute contents are opaque wire fields here, since the class is not part
of the provided sources. -/
structure TextStyle where
  fields : List (String × Json)

/-- Modelled from the spec: `TextStyle._serialize`, the style object's own
serializer, producing the wire value of this style for the given session. -/
def TextStyle._serialize (ts : TextStyle) (_session : Unit) : Json :=
  Json.obj ts.fields

/-- The `Text` component of `src/rio/components/text.py`. Its `style`
attribute is a union of a named preset (`Sum.inl`) and a full `TextStyle`
object (`Sum.inr`). -/
structure Text where
  text : String
  selectable : Bool
  style : String ⊕ TextStyle
  justify : String := "left"

namespace Text

/-- Modelled from the spec: `Text._text_align`, the text alignment wire
value of the component (derived from its layout attributes; the defining
code is not part of the provided sources). -/
def _text_align (t : Text) : Json :=
  Json.str t.justify

/-- Embedding of `Text._custom_serialize`: serialization does not handle
unions, so the style attribute is encoded by inspecting the runtime
variant — a string preset is emitted unchanged, a `TextStyle` object is
serialized via its own `_serialize`. -/
def _custom_serialize (t : Text) (session : Unit) : List (String × Json) :=
  let style := match t.style with
    | Sum.inl s => Json.str s
    | Sum.inr ts => ts._serialize session
  [("style", style), ("text_align", t._text_align)]

end Text

namespace Testing

/-- An outbound message recorded by the test transport: its JSON-RPC
method, the `params.deltaStates` payload (component identifier mapped to a
partial attribute mapping; empty for other methods), and the optional
correlation identifier. -/
structure OutboundMessage where
  method : String
  deltaStates : List (Nat × List (String × Json)) := []
  id : Option Json := none

/-- State of the `MessageRecorderTransport` as driven by
`TestClient._process_sent_message`: the queued inbound responses and the
`_first_refresh_completed` event flag. -/
structure TransportState where
  queued_responses : List JsonDoc := []
  first_refresh_completed : Bool := false

/-- Embedding of `TestClient._process_sent_message`: when the outbound
message carries a correlation id, one acknowledgment response with the same
id is queued on the transport; when the message's method is
`updateComponentStates`, the first-refresh event is set. -/
def _process_sent_message (st : TransportState) (message : OutboundMessage) :
    TransportState :=
  let st1 := match message.id with
    | some idv =>
        { st with queued_responses := st.queued_responses
            ++ [[("jsonrpc", Json.str "2.0"), ("id", idv),
                 ("result", Json.null)]] }
    | none => st
  if message.method == "updateComponentStates" then
    { st1 with first_refresh_completed := true }
  else
    st1

/-- A live component of the session tree: its identifier and its full
attribute set. -/
structure ComponentState where
  id : Nat
  attrs : List (String × Json)

/-- Modelled from the spec: `create_session` builds the root component,
performs an initial full rebuild with the entire tree dirty, and sends one
outbound `updateComponentStates` message carrying every live component's
full attribute set before returning. -/
def create_session (tree : List ComponentState) : List OutboundMessage :=
  [{ method := "updateComponentStates",
     deltaStates := tree.map (fun c => (c.id, c.attrs)) }]

/-- Embedding of `TestClient.__aenter__` composed with the recorder
transport: the session is created, every sent message is processed by
`_process_sent_message`, and the client returns the transcript only once
the `_first_refresh_completed` event has been set by an
`updateComponentStates` message; otherwise it keeps waiting, modelled as
`none`. -/
def aenter (tree : List ComponentState) : Option (List OutboundMessage) :=
  let sent := create_session tree
  let st := sent.foldl _process_sent_message {}
  if st.first_refresh_completed then some sent else none

/-- Embedding of `TestClient._last_component_state_changes`: scan the sent
messages from most recent to oldest, and for the first
`updateComponentStates` message return its deltaStates keyed by the
resolved component (components are identified by their `Nat` identifier in
this model, so resolution through `_weak_components_by_id` is the
identity), excluding the root component; when no such message exists,
return the empty mapping. -/
def _last_component_state_changes (sent_messages : List OutboundMessage)
    (root_component_id : Nat) : List (Nat × List (String × Json)) :=
  match (sent_messages.reverse).find?
      (fun m => m.method == "updateComponentStates") with
  | some m => m.deltaStates.filter (fun kv => kv.1 != root_component_id)
  | none => []

end Testing

/-- C1: for every confirm message with payload carrying text `v` delivered
to a `TextInput`, the processing order is: the payload value is applied to
the stored text attribute first, then the change handler is invoked with
the now-stored value (equal to `v`), then the confirm handler with the same
stored value, and finally a session refresh is triggered unconditionally,
regardless of whether any handler is registered or any attribute changed. -/
theorem claim_C1 (c : TextInput) (kvs : List (String × Json)) (v : String)
    (h : lookupKey "text" kvs = some (Json.str v)) :
    TextInput._on_message c (Json.obj kvs)
      = Except.ok ({ c with text := v },
          Effect.applyDelta [("text", Json.str v)]
            :: (TextInput.call_event_handler c.on_change
                  (Effect.changeHandler v v)
                ++ TextInput.call_event_handler c.on_confirm
                  (Effect.confirmHandler v v)
                ++ [Effect.refresh])) := by
  simp only [TextInput._on_message, h]
  rfl

/-- C1 witness: confirm with payload text "abc" on a component storing
"ab", both handlers registered: the change handler observes "abc" as the
stored value, the confirm handler the same value, and a refresh follows. -/
theorem claim_C1_witness :
    TextInput._on_message
        { text := "ab", on_change := some (), on_confirm := some () }
        (Json.obj [("text", Json.str "abc")])
      = Except.ok
          ({ text := "abc", on_change := some (), on_confirm := some () },
           [Effect.applyDelta [("text", Json.str "abc")],
            Effect.changeHandler "abc" "abc",
            Effect.confirmHandler "abc" "abc",
            Effect.refresh]) :=
  claim_C1 _ _ "abc" rfl

/-- C2: for a live-keystroke delta containing key "text", the change
handler is invoked with the value taken directly from the inbound delta
while the stored text is still the old value (the delta is merged only
afterwards); for a delta without a "text" key the change handler is not
invoked but the delta is still applied. -/
theorem claim_C2 (c : TextInput) (delta_state : List (String × Json)) :
    (∀ v : String, lookupKey "text" delta_state = some (Json.str v) →
       TextInput._call_event_handlers_for_delta_state c delta_state
         = Except.ok (c._apply_delta_state_from_frontend delta_state,
             TextInput.call_event_handler c.on_change
                 (Effect.changeHandler v c.text)
               ++ [Effect.applyDelta delta_state]))
    ∧ (lookupKey "text" delta_state = none →
       TextInput._call_event_handlers_for_delta_state c delta_state
         = Except.ok (c._apply_delta_state_from_frontend delta_state,
             [Effect.applyDelta delta_state])) := by
  constructor
  · intro v h
    unfold TextInput._call_event_handlers_for_delta_state
    rw [h]
  · intro h
    unfold TextInput._call_event_handlers_for_delta_state
    rw [h]

/-- C2 witness: a delta setting text to "new" on a component storing "old"
with a registered change handler invokes the handler with "new" while the
stored text is still "old", then applies the delta; the empty delta invokes
no handler and is applied unchanged. -/
theorem claim_C2_witness :
    (TextInput._call_event_handlers_for_delta_state
        { text := "old", on_change := some () } [("text", Json.str "new")]
      = Except.ok ({ text := "new", on_change := some () },
          [Effect.changeHandler "new" "old",
           Effect.applyDelta [("text", Json.str "new")]]))
    ∧ (TextInput._call_event_handlers_for_delta_state
        { text := "old", on_change := some () } []
      = Except.ok ({ text := "old", on_change := some () },
          [Effect.applyDelta []])) :=
  ⟨(claim_C2 { text := "old", on_change := some () }
      [("text", Json.str "new")]).1 "new" rfl,
   (claim_C2 { text := "old", on_change := some () } []).2 rfl⟩

/-- C9: `TextInput._on_message` requires its message to be a dict
containing the key "text": a non-dict message, or a dict lacking that key,
fails with an exception — the `Except.error` result carries no updated
component and no effect trace, so no attribute is mutated and no handler is
invoked. -/
theorem claim_C9 (c : TextInput) :
    (∀ msg : Json, (∀ kvs, msg ≠ Json.obj kvs) →
       ∃ e, TextInput._on_message c msg = Except.error e)
    ∧ (∀ kvs, lookupKey "text" kvs = none →
       ∃ e, TextInput._on_message c (Json.obj kvs) = Except.error e) := by
  constructor
  · intro msg hmsg
    cases msg with
    | null => exact ⟨_, rfl⟩
    | bool b => exact ⟨_, rfl⟩
    | num n => exact ⟨_, rfl⟩
    | str s => exact ⟨_, rfl⟩
    | arr xs => exact ⟨_, rfl⟩
    | obj kvs => exact absurd rfl (hmsg kvs)
  · intro kvs h
    refine ⟨"KeyError: text", ?_⟩
    simp only [TextInput._on_message, h]

/-- C9 witness: a string message (not a dict) is rejected, and so is a dict
without a "text" key. -/
theorem claim_C9_witness :
    (∃ e, TextInput._on_message {} (Json.str "boom") = Except.error e)
    ∧ (∃ e, TextInput._on_message {}
        (Json.obj [("other", Json.null)]) = Except.error e) :=
  ⟨(claim_C9 {}).1 (Json.str "boom") (fun _ h => Json.noConfusion h),
   (claim_C9 {}).2 [("other", Json.null)] rfl⟩

/-- C3: an inbound delta whose key set is not contained in the whitelist
consisting only of "text" fails validation, and the inbound dispatch
rejects it entirely — the `Except.error` result carries no updated
component, so no attribute is mutated, even when the delta also contains
the valid "text" key. -/
theorem claim_C3 (c : TextInput) (delta_state : List (String × Json))
    (h : delta_state.all (fun kv => kv.1 == "text") = false) :
    c._validate_delta_state_from_frontend delta_state
      = Except.error "Frontend tried to change TextInput state"
    ∧ TextInput.handle_inbound_delta c delta_state
      = Except.error "Frontend tried to change TextInput state" := by
  have hv : c._validate_delta_state_from_frontend delta_state
      = Except.error "Frontend tried to change TextInput state" := by
    unfold TextInput._validate_delta_state_from_frontend
    rw [if_pos]
    simp [h]
  refine ⟨hv, ?_⟩
  unfold TextInput.handle_inbound_delta
  rw [hv]

/-- C3 witness: a delta combining the valid key "text" with the invalid
key "is_secret" is rejected as a whole by validation and by the dispatch. -/
theorem claim_C3_witness :
    TextInput._validate_delta_state_from_frontend {}
        [("text", Json.str "a"), ("is_secret", Json.bool true)]
      = Except.error "Frontend tried to change TextInput state"
    ∧ TextInput.handle_inbound_delta {}
        [("text", Json.str "a"), ("is_secret", Json.bool true)]
      = Except.error "Frontend tried to change TextInput state" :=
  claim_C3 {} [("text", Json.str "a"), ("is_secret", Json.bool true)] rfl

/-- C4: a delta containing the key "text" fails validation whenever
`is_sensitive` is false, so a non-interactive `TextInput` never accepts a
client-supplied text value; when `is_sensitive` is true and every key lies
in the whitelist, validation succeeds. -/
theorem claim_C4 (c : TextInput) (delta_state : List (String × Json)) :
    (delta_state.any (fun kv => kv.1 == "text") = true →
       c.is_sensitive = false →
       ∃ e, c._validate_delta_state_from_frontend delta_state
         = Except.error e)
    ∧ (c.is_sensitive = true →
       delta_state.all (fun kv => kv.1 == "text") = true →
       c._validate_delta_state_from_frontend delta_state = Except.ok ()) := by
  constructor
  · intro hany hsens
    unfold TextInput._validate_delta_state_from_frontend
    by_cases hall : delta_state.all (fun kv => kv.1 == "text") = true
    · rw [if_neg (by simp [hall])]
      rw [if_pos ⟨hany, by simp [hsens]⟩]
      exact ⟨_, rfl⟩
    · rw [if_pos (by simpa using hall)]
      exact ⟨_, rfl⟩
  · intro hsens hall
    unfold TextInput._validate_delta_state_from_frontend
    rw [if_neg (by simp [hall])]
    rw [if_neg (by simp [hsens])]

/-- C4 witness: with `is_sensitive := false` a delta on "text" is rejected;
with the default `is_sensitive := true` the same delta passes validation. -/
theorem claim_C4_witness :
    (∃ e, TextInput._validate_delta_state_from_frontend
        { is_sensitive := false } [("text", Json.str "a")]
      = Except.error e)
    ∧ TextInput._validate_delta_state_from_frontend {}
        [("text", Json.str "a")] = Except.ok () :=
  ⟨(claim_C4 { is_sensitive := false } [("text", Json.str "a")]).1 rfl rfl,
   (claim_C4 {} [("text", Json.str "a")]).2 rfl rfl⟩

/-- C5: `Text._custom_serialize` inspects the runtime variant of the style
attribute — a string preset is emitted unchanged as the wire value, and a
`TextStyle` object is serialized via the style object's own serializer —
and in both cases the result contains the keys "style" and "text_align". -/
theorem claim_C5 (t : Text) (session : Unit) :
    (∀ s, t.style = Sum.inl s →
       t._custom_serialize session
         = [("style", Json.str s), ("text_align", t._text_align)])
    ∧ (∀ ts, t.style = Sum.inr ts →
       t._custom_serialize session
         = [("style", ts._serialize session),
            ("text_align", t._text_align)])
    ∧ (lookupKey "style" (t._custom_serialize session)).isSome = true
    ∧ (lookupKey "text_align" (t._custom_serialize session)).isSome
        = true := by
  refine ⟨?_, ?_, ?_, ?_⟩
  · intro s hs
    simp [Text._custom_serialize, hs]
  · intro ts hts
    simp [Text._custom_serialize, hts]
  · cases h : t.style <;> simp [Text._custom_serialize, h, lookupKey]
  · cases h : t.style <;> simp [Text._custom_serialize, h, lookupKey]

/-- C5 witness: a preset style "heading1" is emitted unchanged, and a
`TextStyle` object is emitted through its own serializer; both results
carry "style" and "text_align" keys. -/
theorem claim_C5_witness :
    ({ text := "hi", selectable := true,
       style := Sum.inl "heading1" } : Text)._custom_serialize ()
      = [("style", Json.str "heading1"), ("text_align", Json.str "left")]
    ∧ ({ text := "hi", selectable := true,
         style := Sum.inr ⟨[("font_size", Json.num 2)]⟩ }
           : Text)._custom_serialize ()
      = [("style", Json.obj [("font_size", Json.num 2)]),
         ("text_align", Json.str "left")] :=
  ⟨(claim_C5 ⟨"hi", true, Sum.inl "heading1", "left"⟩ ()).1 "heading1" rfl,
   (claim_C5 ⟨"hi", true, Sum.inr ⟨[("font_size", Json.num 2)]⟩, "left"⟩
      ()).2.1 ⟨[("font_size", Json.num 2)]⟩ rfl⟩

/-- C6: both handlers of `TextInput` default to `none`, and omission is a
no-op, never an error: a confirm message processed with both handlers
absent still applies the payload to the attribute store, completes without
raising, and triggers the refresh. -/
theorem claim_C6 (c : TextInput) (kvs : List (String × Json)) (v : String)
    (hc : c.on_change = none) (hcf : c.on_confirm = none)
    (h : lookupKey "text" kvs = some (Json.str v)) :
    ({} : TextInput).on_change = none
    ∧ ({} : TextInput).on_confirm = none
    ∧ TextInput._on_message c (Json.obj kvs)
        = Except.ok ({ c with text := v },
            [Effect.applyDelta [("text", Json.str v)], Effect.refresh]) := by
  refine ⟨rfl, rfl, ?_⟩
  simp only [TextInput._on_message, h, hc, hcf]
  simp [TextInput.call_event_handler, TextInput._apply_delta_state_from_frontend,
    lookupKey, hc, hcf]

/-- C6 witness: a default `TextInput` (no handlers) processes a confirm
message for "x" by storing "x" and refreshing, with no error. -/
theorem claim_C6_witness :
    ({} : TextInput).on_change = none
    ∧ ({} : TextInput).on_confirm = none
    ∧ TextInput._on_message {} (Json.obj [("text", Json.str "x")])
        = Except.ok ({ text := "x" },
            [Effect.applyDelta [("text", Json.str "x")], Effect.refresh]) :=
  claim_C6 {} [("text", Json.str "x")] "x" rfl rfl rfl

/-- Helper: `List.find?` skips a block of elements on which the predicate
is false. -/
theorem find?_append_of_forall_false {α : Type} (p : α → Bool)
    (l₁ l₂ : List α) (h : ∀ x ∈ l₁, p x = false) :
    List.find? p (l₁ ++ l₂) = List.find? p l₂ := by
  induction l₁ with
  | nil => rfl
  | cons a l ih =>
      rw [List.cons_append,
        List.find?_cons_of_neg _ (by simp [h a (List.mem_cons_self a l)])]
      exact ih (fun x hx => h x (List.mem_cons_of_mem a hx))

/-- C7: session creation sends one outbound message containing the full
initial state before creation completes: `aenter` returns (rather than
keeps waiting) exactly the transcript of `create_session`, whose single
`updateComponentStates` message carries one deltaStates entry per
component of the tree with that component's full attribute set, so any
returned transcript contains such a message and a 3-component tree yields
exactly 3 entries. -/
theorem claim_C7 (tree : List Testing.ComponentState) :
    Testing.aenter tree
      = some [{ method := "updateComponentStates",
                deltaStates := tree.map (fun c => (c.id, c.attrs)) }]
    ∧ (∀ msgs, Testing.aenter tree = some msgs →
         ∃ m ∈ msgs, m.method = "updateComponentStates")
    ∧ (tree.map (fun c => (c.id, c.attrs))).length = tree.length := by
  have ha : Testing.aenter tree
      = some [{ method := "updateComponentStates",
                deltaStates := tree.map (fun c => (c.id, c.attrs)) }] := by
    simp [Testing.aenter, Testing.create_session, Testing._process_sent_message]
  refine ⟨ha, ?_, by simp⟩
  intro msgs hmsgs
  rw [ha] at hmsgs
  cases hmsgs
  exact ⟨_, List.mem_singleton_self _, rfl⟩

/-- C7 witness: creating a session over a concrete 3-component tree returns
one `updateComponentStates` message whose deltaStates has exactly the 3
components with their full attribute sets. -/
theorem claim_C7_witness :
    Testing.aenter
        [⟨1, [("text", Json.str "a")]⟩, ⟨2, [("is_valid", Json.bool true)]⟩,
         ⟨3, []⟩]
      = some [{ method := "updateComponentStates",
                deltaStates := [(1, [("text", Json.str "a")]),
                  (2, [("is_valid", Json.bool true)]), (3, [])] }]
    ∧ (∃ m ∈ [({ method := "updateComponentStates",
                 deltaStates := [(1, [("text", Json.str "a")]),
                   (2, [("is_valid", Json.bool true)]),
                   (3, [])] } : Testing.OutboundMessage)],
         m.method = "updateComponentStates")
    ∧ ([(1, [("text", Json.str "a")]), (2, [("is_valid", Json.bool true)]),
        (3, [])] : List (Nat × List (String × Json))).length = 3 :=
  ⟨(claim_C7 [⟨1, [("text", Json.str "a")]⟩,
      ⟨2, [("is_valid", Json.bool true)]⟩, ⟨3, []⟩]).1,
   (claim_C7 [⟨1, [("text", Json.str "a")]⟩,
      ⟨2, [("is_valid", Json.bool true)]⟩, ⟨3, []⟩]).2.1 _
      (claim_C7 [⟨1, [("text", Json.str "a")]⟩,
        ⟨2, [("is_valid", Json.bool true)]⟩, ⟨3, []⟩]).1,
   (claim_C7 [⟨1, [("text", Json.str "a")]⟩,
      ⟨2, [("is_valid", Json.bool true)]⟩, ⟨3, []⟩]).2.2⟩

/-- C8: for every outbound message carrying a correlation id, the test
transport queues exactly one inbound acknowledgment of the form
jsonrpc 2.0 / the same id / result null; outbound messages without an id
queue no acknowledgment. -/
theorem claim_C8 (st : Testing.TransportState)
    (message : Testing.OutboundMessage) :
    (∀ idv, message.id = some idv →
       (Testing._process_sent_message st message).queued_responses
         = st.queued_responses
           ++ [[("jsonrpc", Json.str "2.0"), ("id", idv),
                ("result", Json.null)]])
    ∧ (message.id = none →
       (Testing._process_sent_message st message).queued_responses
         = st.queued_responses) := by
  constructor
  · intro idv hid
    unfold Testing._process_sent_message
    rw [hid]
    by_cases hm : (message.method == "updateComponentStates") = true
    · simp [hm]
    · simp [hm]
  · intro hid
    unfold Testing._process_sent_message
    rw [hid]
    by_cases hm : (message.method == "updateComponentStates") = true
    · simp [hm]
    · simp [hm]

/-- C8 witness: a correlated message with id 7 queues exactly the one
acknowledgment carrying id 7; an uncorrelated message queues nothing. -/
theorem claim_C8_witness :
    (Testing._process_sent_message {}
        { method := "updateComponentStates", id := some (Json.num 7) }
      ).queued_responses
      = [[("jsonrpc", Json.str "2.0"), ("id", Json.num 7),
          ("result", Json.null)]]
    ∧ (Testing._process_sent_message {}
        { method := "updateComponentStates" }).queued_responses = [] :=
  ⟨(claim_C8 {}
      { method := "updateComponentStates", id := some (Json.num 7) }).1
      (Json.num 7) rfl,
   (claim_C8 {} { method := "updateComponentStates" }).2 rfl⟩

/-- C10: `_last_component_state_changes` returns the deltaStates of only
the most recent outbound `updateComponentStates` message (the one after
which no further such message was sent), keyed by the resolved component
(identified here by its id), with the root component always excluded; when
no such message has been sent it returns the empty mapping. -/
theorem claim_C10 (root : Nat) :
    (∀ (xs ys : List Testing.OutboundMessage)
       (m : Testing.OutboundMessage),
       m.method = "updateComponentStates" →
       (∀ y ∈ ys, y.method ≠ "updateComponentStates") →
       Testing._last_component_state_changes (xs ++ m :: ys) root
           = m.deltaStates.filter (fun kv => kv.1 != root)
         ∧ ∀ kv ∈ Testing._last_component_state_changes (xs ++ m :: ys)
             root, kv.1 ≠ root)
    ∧ (∀ sent : List Testing.OutboundMessage,
       (∀ m ∈ sent, m.method ≠ "updateComponentStates") →
       Testing._last_component_state_changes sent root = []) := by
  constructor
  · intro xs ys m hm hys
    have hfind : ((xs ++ m :: ys).reverse).find?
        (fun m => m.method == "updateComponentStates") = some m := by
      rw [List.reverse_append, List.reverse_cons, List.append_assoc,
        find?_append_of_forall_false _ _ _
          (fun y hy => by
            simp only [beq_eq_false_iff_ne]
            exact hys y (List.mem_reverse.mp hy)),
        List.singleton_append, List.find?_cons_of_pos _ (by simp [hm])]
    have hmain : Testing._last_component_state_changes (xs ++ m :: ys) root
        = m.deltaStates.filter (fun kv => kv.1 != root) := by
      unfold Testing._last_component_state_changes
      rw [hfind]
    refine ⟨hmain, ?_⟩
    intro kv hkv
    rw [hmain] at hkv
    have := List.of_mem_filter hkv
    simpa using this
  · intro sent hsent
    unfold Testing._last_component_state_changes
    rw [List.find?_eq_none.mpr
      (fun y hy => by
        simp only [beq_iff_eq]
        exact hsent y (List.mem_reverse.mp hy))]

/-- C10 witness: with root id 1, the most recent updateComponentStates
message's deltaStates are returned without the root entry, ignoring an
older update message and a newer non-update message; a transcript with no
update message yields the empty mapping. -/
theorem claim_C10_witness :
    Testing._last_component_state_changes
        [{ method := "updateComponentStates", deltaStates := [(1, []), (9, [])] },
         { method := "updateComponentStates",
           deltaStates := [(1, []), (2, [("text", Json.str "x")])] },
         { method := "other" }] 1
      = [(2, [("text", Json.str "x")])]
    ∧ Testing._last_component_state_changes [{ method := "other" }] 1 = [] := by
  constructor
  · exact ((claim_C10 1).1
      [{ method := "updateComponentStates", deltaStates := [(1, []), (9, [])] }]
      [{ method := "other" }]
      { method := "updateComponentStates",
        deltaStates := [(1, []), (2, [("text", Json.str "x")])] }
      rfl (by simp)).1
  · exact (claim_C10 1).2 [{ method := "other" }] (by simp)

end Rio
